import Mathlib

/-
Verification of the GraphQL query validation-and-execution tool
(`GraphQLTool.execute_query` in `agent.py`).

The embedding models Python strings as Lean `String` (a wrapper around
`List Char`), JSON values as an inductive `Json` type, and the HTTP layer
as an explicit function from requests to transport outcomes, so that the
network effect of a call is observable as the list of requests issued.
-/

namespace Agent

/-- The literal disallowed-character set scanned by the third validation
check: the Python source iterates over the characters of the string
literal of `<`, `>`, `!`, `@`, `#`, `$`, `%`, `^`, `&`, `*`. -/
def invalidChars : String := "<>!@#$%^&*"

/-- Model of Python `str.strip()`: remove leading and trailing whitespace
characters. -/
def strip (s : String) : String :=
  ⟨((s.data.dropWhile Char.isWhitespace).reverse.dropWhile Char.isWhitespace).reverse⟩

/-- The three rejection reasons of the validation gate, corresponding to
the three `ValueError` messages raised by `execute_query` before any
network activity. -/
inductive RejectionReason where
  | UnbalancedBraces
  | TooShortOrEmpty
  | InvalidCharacters
deriving DecidableEq, Repr

/-- The validation gate of `execute_query` (`agent.py` lines 26-37), as a
pure function: `none` means the query is accepted, `some r` means it is
rejected with reason `r`.  The three checks are applied in the source
order: brace-count balance, then the emptiness/short check on the
stripped string, then the disallowed-character scan. -/
def validate (query : String) : Option RejectionReason :=
  if query.data.count '{' ≠ query.data.count '}' then
    some .UnbalancedBraces
  else if strip query = "" ∨ (strip query).data.length < 10 then
    some .TooShortOrEmpty
  else if invalidChars.data.any (fun c => query.data.contains c) then
    some .InvalidCharacters
  else
    none

/-- JSON values: the decoded shape of request payloads and response
bodies (tagged union of null, booleans, numbers, strings, arrays and
objects). -/
inductive Json where
  | null
  | bool (b : Bool)
  | num (n : Int)
  | str (s : String)
  | arr (elems : List Json)
  | obj (fields : List (String × Json))

/-- An HTTP request as built by `execute_query`: target URL, the declared
content type, and the JSON payload. -/
structure HttpRequest where
  url : String
  contentType : String
  payload : Json

/-- An HTTP response delivered by the client: final status code and raw
body text. -/
structure HttpResponse where
  status : Nat
  body : String

/-- Outcome of attempting the POST: either a transport-level failure
(DNS, connection refused, timeout), or a delivered response. -/
inductive TransportOutcome where
  | failure (cause : String)
  | response (r : HttpResponse)

/-- What a transport error carries: the underlying network cause, or the
offending HTTP status code. -/
inductive TransportCause where
  | network (cause : String)
  | status (code : Nat)
deriving DecidableEq, Repr

/-- The errors `execute_query` can raise: a validation rejection, a
transport/HTTP error, or a malformed (non-JSON) response body. -/
inductive ExecError where
  | rejected (reason : RejectionReason)
  | transport (cause : TransportCause)
  | malformed (body : String)
deriving DecidableEq, Repr

/-- The request built by `execute_query` for an accepted query: POST to
the configured URL, content type JSON, body the mapping from the key
of `query` to the query string. -/
def requestOf (apiUrl query : String) : HttpRequest :=
  { url := apiUrl
    contentType := "application/json"
    payload := Json.obj [("query", Json.str query)] }

/-- Model of `requests.Response.raise_for_status`: an `HTTPError` is
raised exactly for client-error (4xx) and server-error (5xx) final
status codes. -/
def raise_for_status (r : HttpResponse) : Option TransportCause :=
  if 400 ≤ r.status ∧ r.status < 600 then some (.status r.status) else none

/-- Processing of the transport outcome in `execute_query` (lines 48-55):
a transport failure propagates; a delivered response first goes through
`raise_for_status`, then its body is decoded as JSON by `decoder`
(modelling the JSON decoder of the HTTP library, whose code is outside
this repository); a decoding failure is the malformed-response error. -/
def handleResponse (decoder : String → Option Json) (o : TransportOutcome) :
    Except ExecError Json :=
  match o with
  | .failure c => .error (.transport (.network c))
  | .response r =>
    match raise_for_status r with
    | some c => .error (.transport c)
    | none =>
      match decoder r.body with
      | some j => Except.ok j
      | none => .error (.malformed r.body)

/-- `GraphQLTool.execute_query` (lines 22-55): validate, and on
acceptance issue exactly one POST of the query payload and process the
outcome.  The first component of the result is the list of HTTP
requests issued during the call, so that network activity is
observable; the second is the returned value or raised error. -/
def execute_query (decoder : String → Option Json)
    (net : HttpRequest → TransportOutcome) (apiUrl query : String) :
    List HttpRequest × Except ExecError Json :=
  match validate query with
  | some r => ([], .error (.rejected r))
  | none =>
    ([requestOf apiUrl query], handleResponse decoder (net (requestOf apiUrl query)))

/-- Spec-side description of the validation gate, following the spec's
words for comparison with `validate`: the ordered list of checks, each
paired with its rejection reason — brace balance, then non-triviality of
the trimmed string, then the disallowed-character scan. -/
def specChecks (query : String) : List (Bool × RejectionReason) :=
  [ (decide (query.data.count '{' ≠ query.data.count '}'), .UnbalancedBraces),
    (decide (strip query = "" ∨ (strip query).data.length < 10), .TooShortOrEmpty),
    (invalidChars.data.any (fun c => query.data.contains c), .InvalidCharacters) ]

/-- Spec-side description, first-failure-wins semantics: the rejection
reason of the first check in `specChecks` that fails, `none` if all
pass. -/
def specFirstFailure (query : String) : Option RejectionReason :=
  ((specChecks query).find? (fun p => p.1)).map (fun p => p.2)

/-- Proper nesting of braces: scanning left to right, the depth never
goes negative and ends at zero.  This is the property the validation
gate does NOT check (it compares only total counts). -/
def braceDepthOk : List Char → Nat → Bool
  | [], d => d == 0
  | c :: cs, d =>
    if c = '{' then braceDepthOk cs (d + 1)
    else if c = '}' then
      match d with
      | 0 => false
      | d + 1 => braceDepthOk cs d
    else braceDepthOk cs d

/-- A string is a properly nested brace sequence when its brace scan
stays non-negative and closes every opened brace. -/
def properlyNested (s : String) : Bool := braceDepthOk s.data 0

/-- A decoder that rejects every body, modelling an upstream that never
returns JSON. -/
def nullDecoder : String → Option Json := fun _ => none

/-- A network that fails every request at the transport level. -/
def refusedNet : HttpRequest → TransportOutcome := fun _ => .failure "connection refused"

/-- A network that answers every request with the fixed response `r`. -/
def constNet (r : HttpResponse) : HttpRequest → TransportOutcome := fun _ => .response r

/-- The response body of the spec's mocked-endpoint example. -/
def exampleBody : String := "\x7b\"data\":\x7b\"jobs\":[]\x7d\x7d"

/-- The decoded JSON mapping of the spec's mocked-endpoint example. -/
def exampleJson : Json := Json.obj [("data", Json.obj [("jobs", Json.arr [])])]

/-- A decoder that decodes exactly the example body to the example
mapping. -/
def exampleDecoder : String → Option Json :=
  fun s => if s = exampleBody then some exampleJson else none

/-- C2: validation applies its three checks in the fixed order brace
balance, non-triviality, disallowed-character scan, and returns the
rejection reason of the first failing check (first failure wins,
short-circuit, not accumulate). -/
theorem validate_first_failure_wins (query : String) :
    validate query = specFirstFailure query := by
  unfold validate specFirstFailure specChecks
  split_ifs with h1 h2 h3
  · rw [List.find?_cons_of_pos _ (by simpa using h1)]
    rfl
  · rw [List.find?_cons_of_neg _ (by simpa using h1),
      List.find?_cons_of_pos _ (by simpa using h2)]
    rfl
  · rw [List.find?_cons_of_neg _ (by simpa using h1),
      List.find?_cons_of_neg _ (by simpa using h2),
      List.find?_cons_of_pos _ (by simpa using h3)]
    rfl
  · rw [List.find?_cons_of_neg _ (by simpa using h1),
      List.find?_cons_of_neg _ (by simpa using h2),
      List.find?_cons_of_neg _ (by simpa using h3)]
    rfl

/-- C4: every string with unequal counts of the two brace characters is
rejected with reason UnbalancedBraces. -/
theorem validate_unbalanced_rejects (query : String)
    (h : query.data.count '{' ≠ query.data.count '}') :
    validate query = some RejectionReason.UnbalancedBraces := by
  simp [validate, h]

/-- Witness for C4 at the one-character input of a single opening
brace. -/
theorem validate_unbalanced_rejects_witness :
    validate "\x7b" = some RejectionReason.UnbalancedBraces :=
  validate_unbalanced_rejects "\x7b" (by decide)

/-- C3, counterexample: the single-opening-brace string has trimmed
length below 10 yet is rejected with UnbalancedBraces, not
TooShortOrEmpty, because the brace-balance check runs first. -/
theorem short_string_not_always_tooShort :
    (strip "\x7b").data.length < 10 ∧
      validate "\x7b" ≠ some RejectionReason.TooShortOrEmpty := by decide

/-- C3, amended: every string of trimmed length below 10 is rejected,
and with reason TooShortOrEmpty whenever its two brace counts are
equal (an unbalanced short string is rejected with UnbalancedBraces
instead, the earlier check winning). -/
theorem validate_short_rejects (query : String)
    (h : (strip query).data.length < 10) :
    validate query ≠ none ∧
      (query.data.count '{' = query.data.count '}' →
        validate query = some RejectionReason.TooShortOrEmpty) := by
  constructor
  · unfold validate
    split
    · simp
    · rw [if_pos (Or.inr h)]
      simp
  · intro hb
    unfold validate
    rw [if_neg (by simp [hb]), if_pos (Or.inr h)]

/-- Witness for C3's amended theorem at the empty string. -/
theorem validate_short_rejects_witness :
    validate "" = some RejectionReason.TooShortOrEmpty :=
  (validate_short_rejects "" (by decide)).2 (by decide)

/-- C5: every string containing one of the disallowed characters, with
equal brace counts and trimmed length at least 10, is rejected with
reason InvalidCharacters. -/
theorem validate_invalid_chars_rejects (query : String)
    (hb : query.data.count '{' = query.data.count '}')
    (hl : 10 ≤ (strip query).data.length)
    (hc : ∃ c ∈ invalidChars.data, c ∈ query.data) :
    validate query = some RejectionReason.InvalidCharacters := by
  obtain ⟨c, hcm, hcq⟩ := hc
  unfold validate
  rw [if_neg (by simp [hb])]
  rw [if_neg]
  · rw [if_pos]
    exact List.any_eq_true.mpr ⟨c, hcm, by simpa using hcq⟩
  · rintro (he | hlt)
    · rw [he] at hl
      simp at hl
    · omega

/-- Witness for C5 at a balanced, long-enough query containing the at
sign. -/
theorem validate_invalid_chars_rejects_witness :
    validate "\x7b jobs @x abc \x7d" = some RejectionReason.InvalidCharacters :=
  validate_invalid_chars_rejects "\x7b jobs @x abc \x7d" (by decide) (by decide)
    ⟨'@', by decide, by decide⟩

/-- C10: a string that is not a properly nested brace sequence (it
begins with the closing brace and ends with the opening one) still
passes validation, because the brace check compares only total
counts. -/
theorem count_check_ignores_nesting :
    properlyNested "\x7d jobs abcd \x7b" = false ∧
      validate "\x7d jobs abcd \x7b" = none := by decide

/-- C1: a query passing all three validation checks (equal brace counts,
trimmed length at least 10, none of the disallowed characters present)
is accepted, exactly one HTTP request is issued for it, and that
request's body is the mapping from the key of `query` to the input
string unmodified. -/
theorem execute_query_accepts_and_sends (decoder : String → Option Json)
    (net : HttpRequest → TransportOutcome) (apiUrl query : String)
    (hb : query.data.count '{' = query.data.count '}')
    (hl : 10 ≤ (strip query).data.length)
    (hc : ∀ c ∈ invalidChars.data, c ∉ query.data) :
    validate query = none ∧
      (execute_query decoder net apiUrl query).1 = [requestOf apiUrl query] ∧
      (requestOf apiUrl query).payload = Json.obj [("query", Json.str query)] := by
  have hv : validate query = none := by
    unfold validate
    rw [if_neg (by simp [hb])]
    rw [if_neg]
    · rw [if_neg]
      simp only [List.any_eq_true, not_exists]
      rintro c ⟨hcm, hcq⟩
      exact hc c hcm (by simpa using hcq)
    · rintro (he | hlt)
      · rw [he] at hl
        simp at hl
      · omega
  refine ⟨hv, ?_, rfl⟩
  simp [execute_query, hv]

/-- Witness for C1 at the spec's London-jobs example query. -/
theorem execute_query_accepts_and_sends_witness :
    validate "\x7b jobs(limit: 10) \x7b title \x7d \x7d" = none ∧
      (execute_query nullDecoder refusedNet "u"
        "\x7b jobs(limit: 10) \x7b title \x7d \x7d").1 =
        [requestOf "u" "\x7b jobs(limit: 10) \x7b title \x7d \x7d"] ∧
      (requestOf "u" "\x7b jobs(limit: 10) \x7b title \x7d \x7d").payload =
        Json.obj [("query", Json.str "\x7b jobs(limit: 10) \x7b title \x7d \x7d")] :=
  execute_query_accepts_and_sends nullDecoder refusedNet "u"
    "\x7b jobs(limit: 10) \x7b title \x7d \x7d" (by decide) (by decide) (by decide)

/-- C6: a query rejected by validation, with any of the three reasons,
causes no HTTP request at all, and the rejection reason is raised to
the caller. -/
theorem execute_query_rejected_no_request (decoder : String → Option Json)
    (net : HttpRequest → TransportOutcome) (apiUrl query : String)
    (r : RejectionReason) (h : validate query = some r) :
    (execute_query decoder net apiUrl query).1 = [] ∧
      (execute_query decoder net apiUrl query).2 =
        Except.error (ExecError.rejected r) := by
  simp [execute_query, h]

/-- Witness for C6 at the unbalanced single-brace query. -/
theorem execute_query_rejected_no_request_witness :
    (execute_query nullDecoder refusedNet "u" "\x7b").1 = [] ∧
      (execute_query nullDecoder refusedNet "u" "\x7b").2 =
        Except.error (ExecError.rejected RejectionReason.UnbalancedBraces) :=
  execute_query_rejected_no_request nullDecoder refusedNet "u" "\x7b"
    RejectionReason.UnbalancedBraces (by decide)

/-- C7, counterexample: a validated query answered with the non-2xx
status 304 and a valid JSON body does not produce a transport error —
`raise_for_status` only raises for 4xx and 5xx — so the call succeeds
with the decoded body. -/
theorem non2xx_not_always_transport :
    (304 < 200 ∨ 300 ≤ 304) ∧
      (execute_query exampleDecoder (constNet ⟨304, exampleBody⟩) "u"
        "\x7b jobs abcd \x7d").2 = Except.ok exampleJson := by
  exact ⟨Or.inr (by omega), rfl⟩

/-- C7, amended: for a validated query, a transport-level failure (DNS,
connection refused, timeout) or a completed response with a 4xx or 5xx
status fails the call with a transport error carrying the underlying
cause or status. -/
theorem execute_transport_failures (decoder : String → Option Json)
    (net : HttpRequest → TransportOutcome) (apiUrl query : String)
    (h : validate query = none) :
    (∀ c, net (requestOf apiUrl query) = TransportOutcome.failure c →
        (execute_query decoder net apiUrl query).2 =
          Except.error (ExecError.transport (TransportCause.network c))) ∧
      (∀ resp, net (requestOf apiUrl query) = TransportOutcome.response resp →
        400 ≤ resp.status → resp.status < 600 →
        (execute_query decoder net apiUrl query).2 =
          Except.error (ExecError.transport (TransportCause.status resp.status))) := by
  constructor
  · intro c hnet
    simp [execute_query, h, hnet, handleResponse]
  · intro resp hnet h4 h6
    simp [execute_query, h, hnet, handleResponse, raise_for_status, h4, h6]

/-- Witness for C7's amended theorem: a transport refusal on a validated
query surfaces as a network-cause transport error. -/
theorem execute_transport_failures_witness :
    (execute_query nullDecoder refusedNet "u" "\x7b jobs abcd \x7d").2 =
      Except.error (ExecError.transport (TransportCause.network "connection refused")) :=
  (execute_transport_failures nullDecoder refusedNet "u" "\x7b jobs abcd \x7d"
    (by decide)).1 "connection refused" rfl

/-- C8: for a validated query whose POST completes with a 2xx status but
whose body the JSON decoder rejects, the call fails with the
malformed-response error, which is a different error from every
transport error. -/
theorem execute_malformed_distinct (decoder : String → Option Json)
    (net : HttpRequest → TransportOutcome) (apiUrl query : String)
    (resp : HttpResponse) (h : validate query = none)
    (hnet : net (requestOf apiUrl query) = TransportOutcome.response resp)
    (h2 : 200 ≤ resp.status) (h3 : resp.status < 300)
    (hd : decoder resp.body = none) :
    (execute_query decoder net apiUrl query).2 =
        Except.error (ExecError.malformed resp.body) ∧
      ∀ c, ExecError.malformed resp.body ≠ ExecError.transport c := by
  constructor
  · have hs : raise_for_status resp = none := by
      unfold raise_for_status
      rw [if_neg]
      omega
    simp [execute_query, h, hnet, handleResponse, hs, hd]
  · intro c heq
    exact ExecError.noConfusion heq

/-- Witness for C8 at a 200 response whose body no decoder accepts. -/
theorem execute_malformed_distinct_witness :
    (execute_query nullDecoder (constNet ⟨200, "oops"⟩) "u"
        "\x7b jobs abcd \x7d").2 =
        Except.error (ExecError.malformed "oops") ∧
      ∀ c, ExecError.malformed "oops" ≠ ExecError.transport c :=
  execute_malformed_distinct nullDecoder (constNet ⟨200, "oops"⟩) "u"
    "\x7b jobs abcd \x7d" ⟨200, "oops"⟩ (by decide) rfl (by decide) (by decide) rfl

/-- C9: for a validated query answered with HTTP 200 and a body the JSON
decoder accepts, the call returns the decoded mapping verbatim. -/
theorem execute_ok_returns_decoded (decoder : String → Option Json)
    (net : HttpRequest → TransportOutcome) (apiUrl query : String)
    (b : String) (j : Json) (h : validate query = none)
    (hnet : net (requestOf apiUrl query) = TransportOutcome.response ⟨200, b⟩)
    (hd : decoder b = some j) :
    (execute_query decoder net apiUrl query).2 = Except.ok j := by
  have hs : raise_for_status ⟨200, b⟩ = none := by
    unfold raise_for_status
    rw [if_neg]
    simp
  simp [execute_query, h, hnet, handleResponse, hs, hd]

/-- Witness for C9 at the spec's mocked endpoint: body of the
data-jobs-empty-array shape decodes to, and is returned as, the
corresponding mapping. -/
theorem execute_ok_returns_decoded_witness :
    (execute_query exampleDecoder (constNet ⟨200, exampleBody⟩) "u"
      "\x7b jobs abcd \x7d").2 = Except.ok exampleJson :=
  execute_ok_returns_decoded exampleDecoder (constNet ⟨200, exampleBody⟩) "u"
    "\x7b jobs abcd \x7d" exampleBody exampleJson (by decide) rfl rfl

end Agent
